import Mathlib

/-!
Verification of the `dma-accessible` crate (src/src/lib.rs): a shallow
embedding of its data model and operations, and theorems about the
specified properties.

Modelling conventions:
* Machine addresses (`usize`) are `Nat`; the crate never subtracts or
  overflows them in the checked paths.
* `grounded::uninit::GroundedArrayCell<T, LEN>` is modelled as a base byte
  address together with the list of `LEN` element values currently stored
  in it.
* A Rust panic is modelled by the `PanicOr.panicked` constructor carrying
  the panic message; it produces no buffer value.
* `DmaBuffer::new` both mutates the storage (the fill) and returns a
  result, so the model returns the post-call storage state paired with the
  `PanicOr` outcome.
-/

namespace DmaAccessible

/-- Models the Rust trait `DmaAccessible`: a memory region exposing the two
associated constants `START_ADDR` and `END_ADDR`. The Rust region marker
types become values of this structure. -/
structure Region where
  START_ADDR : Nat
  END_ADDR : Nat

/-- SRAM1 memory region (`impl DmaAccessible for Sram1`, lib.rs lines 64-67). -/
def Sram1 : Region := ⟨0x30000000, 0x30020000⟩

/-- DTCM-RAM memory region (`impl DmaAccessible for Dtcm`, lib.rs lines 69-72). -/
def Dtcm : Region := ⟨0x20000000, 0x20010000⟩

/-- ITCM-RAM memory region (`impl DmaAccessible for Itcm`, lib.rs lines 74-77). -/
def Itcm : Region := ⟨0x00000000, 0x00010000⟩

/-- Models `grounded::uninit::GroundedArrayCell<T, LEN>`: backing storage for
`LEN` elements of `T`, placed at byte address `addr`, currently holding the
element values `data`. -/
structure GroundedArrayCell (T : Type) (LEN : Nat) where
  addr : Nat
  data : List T

variable {T : Type} {LEN : Nat}

/-- Models `GroundedArrayCell::initialize_all_copied(v)`: every one of the
`LEN` elements of the storage is overwritten with `v`. -/
def GroundedArrayCell.init_all_copied (cell : GroundedArrayCell T LEN) (v : T) :
    GroundedArrayCell T LEN :=
  ⟨cell.addr, List.replicate LEN v⟩

/-- Models `GroundedArrayCell::get_ptr_len()`: the pointer to the first
element and the const element count `LEN`. -/
def GroundedArrayCell.get_ptr_len (cell : GroundedArrayCell T LEN) : Nat × Nat :=
  (cell.addr, LEN)

/-- Outcome of a Rust call that may panic: either a normal value, or an
abort carrying the panic message. An abort yields no value of `α`. -/
inductive PanicOr (α : Type) where
  | panicked : String → PanicOr α
  | ok : α → PanicOr α

/-- Whether the call returned normally. -/
def PanicOr.isOk : PanicOr α → Bool
  | .ok _ => true
  | .panicked _ => false

/-- Models `DmaBuffer<T, LEN, Region>` (lib.rs lines 90-93): the validated
base address `ptr` (the `NonNull<T>` field), together with the `LEN` element
values of the memory it points at, which the buffer exclusively owns. The
`Region` type parameter is phantom in the source; here the region is passed
as a value to `new`. -/
structure DmaBuffer (T : Type) (LEN : Nat) where
  ptr : Nat
  data : List T

/-- Models the associated constant `DmaBuffer::LENGTH = LEN` (lib.rs line 96),
the length query of the buffer type. -/
def DmaBuffer.LENGTH (_T : Type) (LEN : Nat) : Nat := LEN

/-- The message of the `assert!` at lib.rs lines 128-131. -/
def regionMismatchMessage : String := "Buffer not in DMA-accessible region"

/-- The message of the `assert_eq!` at lib.rs line 132. -/
def lengthAssertMessage : String := "assertion failed: buffer.len() == LEN"

/-- Models `DmaBuffer::new` (lib.rs lines 119-137), step by step:
1. `buffer.initialize_all_copied(initialize_value)` fills the storage;
2. `get_ptr_len` resolves the pointer and length, and
   `from_raw_parts_mut` views the `LEN` elements at that pointer;
3. `assert!(addr >= Region::START_ADDR && (addr + LEN) <= Region::END_ADDR)`
   — note the source adds the element count `LEN` to the byte address,
   without a `size_of::<T>()` factor;
4. `assert_eq!(buffer.len(), LEN)`;
5. on success, the buffer wraps the pointer.
The returned pair is (storage state after the call, outcome). -/
def DmaBuffer.new (R : Region) (cell : GroundedArrayCell T LEN) (init_value : T) :
    GroundedArrayCell T LEN × PanicOr (DmaBuffer T LEN) :=
  let cell2 := cell.init_all_copied init_value
  let pl := cell2.get_ptr_len
  let slice : List T := cell2.data
  let addr : Nat := pl.1
  if R.START_ADDR ≤ addr ∧ addr + LEN ≤ R.END_ADDR then
    if slice.length = LEN then
      (cell2, .ok ⟨addr, slice⟩)
    else
      (cell2, .panicked lengthAssertMessage)
  else
    (cell2, .panicked regionMismatchMessage)

/-- A Rust slice view `&[T]` / `&mut [T]` produced by
`core::slice::from_raw_parts(ptr, len)`: base pointer, element count, and the
element values it gives access to. -/
structure Slice (T : Type) where
  base : Nat
  len : Nat
  elems : List T

/-- Models `DmaBuffer::as_slice` (lib.rs lines 140-142):
`from_raw_parts(self.ptr.as_ptr(), LEN)`. -/
def DmaBuffer.as_slice (b : DmaBuffer T LEN) : Slice T :=
  ⟨b.ptr, LEN, b.data⟩

/-- Models `DmaBuffer::as_mut_slice` (lib.rs lines 148-150):
`from_raw_parts_mut(self.ptr.as_ptr(), LEN)`. -/
def DmaBuffer.as_mut_slice (b : DmaBuffer T LEN) : Slice T :=
  ⟨b.ptr, LEN, b.data⟩

/-- Models `DmaBuffer::as_ptr` (lib.rs lines 157-159). -/
def DmaBuffer.as_ptr (b : DmaBuffer T LEN) : Nat :=
  b.ptr

/-- Models `DmaBuffer::as_mut_ptr` (lib.rs lines 166-168). -/
def DmaBuffer.as_mut_ptr (b : DmaBuffer T LEN) : Nat :=
  b.ptr

/-- A single element write through the mutable view:
`buffer.as_mut_slice()[i] = v`. It updates the owned memory and nothing
else. -/
def DmaBuffer.store (b : DmaBuffer T LEN) (i : Nat) (v : T) : DmaBuffer T LEN :=
  ⟨b.ptr, b.data.set i v⟩

/-- Writing the values `xs` one by one through the mutable view, starting at
index `i`. -/
def DmaBuffer.writeFrom (b : DmaBuffer T LEN) (i : Nat) : List T → DmaBuffer T LEN
  | [] => b
  | v :: vs => DmaBuffer.writeFrom (b.store i v) (i + 1) vs

/-- Writing a whole sequence of values through the mutable view. -/
def DmaBuffer.writeSeq (b : DmaBuffer T LEN) (xs : List T) : DmaBuffer T LEN :=
  b.writeFrom 0 xs

/-- Modelled from the spec: the containment check as the spec words it,
`base >= start && base + count*element_size <= end`, with the element size
factored in. Used to compare the spec's check with the code's. -/
def specRegionCheck (R : Region) (element_size base count : Nat) : Bool :=
  decide (base ≥ R.START_ADDR) && decide (base + count * element_size ≤ R.END_ADDR)

/- ## Helper lemmas about `DmaBuffer.new` -/

/-- The storage state returned by `new` is always the filled one, whatever
the outcome of the checks. -/
theorem new_fst (R : Region) (cell : GroundedArrayCell T LEN) (v : T) :
    (DmaBuffer.new R cell v).1 = ⟨cell.addr, List.replicate LEN v⟩ := by
  unfold DmaBuffer.new GroundedArrayCell.init_all_copied GroundedArrayCell.get_ptr_len
  by_cases h : R.START_ADDR ≤ cell.addr ∧ cell.addr + LEN ≤ R.END_ADDR <;>
    simp [h]

/-- The outcome of `new`, in closed form: the length assert never fires, so
the result is decided by the address-range check alone. -/
theorem new_snd (R : Region) (cell : GroundedArrayCell T LEN) (v : T) :
    (DmaBuffer.new R cell v).2 =
      if R.START_ADDR ≤ cell.addr ∧ cell.addr + LEN ≤ R.END_ADDR then
        .ok ⟨cell.addr, List.replicate LEN v⟩
      else
        .panicked regionMismatchMessage := by
  unfold DmaBuffer.new GroundedArrayCell.init_all_copied GroundedArrayCell.get_ptr_len
  by_cases h : R.START_ADDR ≤ cell.addr ∧ cell.addr + LEN ≤ R.END_ADDR <;>
    simp [h]

/- ## Claim theorems -/

/-- C5: the three declared region markers expose exactly the documented
bounds — Sram1 [0x3000_0000, 0x3002_0000), Dtcm [0x2000_0000, 0x2001_0000),
Itcm [0x0000_0000, 0x0001_0000) — and each satisfies START_ADDR < END_ADDR. -/
theorem C5_region_marker_bounds :
    Sram1.START_ADDR = 0x30000000 ∧ Sram1.END_ADDR = 0x30020000 ∧
    Dtcm.START_ADDR = 0x20000000 ∧ Dtcm.END_ADDR = 0x20010000 ∧
    Itcm.START_ADDR = 0x00000000 ∧ Itcm.END_ADDR = 0x00010000 ∧
    Sram1.START_ADDR < Sram1.END_ADDR ∧
    Dtcm.START_ADDR < Dtcm.END_ADDR ∧
    Itcm.START_ADDR < Itcm.END_ADDR := by
  refine ⟨rfl, rfl, rfl, rfl, rfl, rfl, ?_, ?_, ?_⟩ <;> decide

/-- C1: for every region, every element size ≥ 1, every length LEN ≥ 1 and
every storage block at base address A with A ≥ START_ADDR and
A + LEN·element_size ≤ END_ADDR (the exact-fit case included), `new`
succeeds and the buffer reports length LEN (both via the slice view's
element count and via the LENGTH constant). -/
theorem C1_new_succeeds_in_range (R : Region) (cell : GroundedArrayCell T LEN)
    (v : T) (element_size : Nat) (hLEN : 1 ≤ LEN) (hsz : 1 ≤ element_size)
    (hlo : R.START_ADDR ≤ cell.addr)
    (hhi : cell.addr + LEN * element_size ≤ R.END_ADDR) :
    ∃ b : DmaBuffer T LEN, (DmaBuffer.new R cell v).2 = .ok b ∧
      b.as_slice.elems.length = LEN ∧ DmaBuffer.LENGTH T LEN = LEN := by
  have hle : cell.addr + LEN ≤ cell.addr + LEN * element_size := by
    have := Nat.mul_le_mul_left LEN hsz
    omega
  refine ⟨⟨cell.addr, List.replicate LEN v⟩, ?_, ?_, rfl⟩
  · rw [new_snd, if_pos ⟨hlo, le_trans hle hhi⟩]
  · simp [DmaBuffer.as_slice]

/-- Witness for C1: a 4-element buffer of 4-byte elements at 0x3000_0100
inside Sram1 is accepted and reports length 4. -/
theorem C1_witness :
    ∃ b : DmaBuffer Nat 4,
      (DmaBuffer.new Sram1 (⟨0x30000100, List.replicate 4 0⟩ :
          GroundedArrayCell Nat 4) 7).2 = .ok b ∧
        b.as_slice.elems.length = 4 ∧ DmaBuffer.LENGTH Nat 4 = 4 :=
  C1_new_succeeds_in_range Sram1 ⟨0x30000100, List.replicate 4 0⟩ 7 4
    (by decide) (by decide) (by decide) (by decide)

/-- C2 (code bug): the source's check at lib.rs line 129 is
`addr >= START_ADDR && addr + LEN <= END_ADDR` — it adds the element count
to the byte address without the `size_of::<T>()` factor the claim (and the
crate's own doc, "Panics if the buffer is not located within the specified
DMA-accessible region") require. Concretely, for 4-byte elements
(element_size = 4), a 4-element block at 0x3001FFFC has byte span ending at
0x3002000C, outside Sram1, so the spec's containment check rejects it; yet
`new` accepts it. -/
theorem C2_size_factor_missing :
    specRegionCheck Sram1 4 0x3001FFFC 4 = false ∧
    (DmaBuffer.new Sram1 (⟨0x3001FFFC, List.replicate 4 0⟩ :
        GroundedArrayCell Nat 4) 0).2 =
      .ok ⟨0x3001FFFC, List.replicate 4 0⟩ := by
  constructor
  · decide
  · rw [new_snd, if_pos (by decide)]

/-- C3: whenever the region check fails, construction panics with the
message "Buffer not in DMA-accessible region" — which contains the text
"not in DMA-accessible region" — and no buffer value is produced for the
caller to inspect. -/
theorem C3_mismatch_panics_with_message (R : Region)
    (cell : GroundedArrayCell T LEN) (v : T)
    (h : ¬(R.START_ADDR ≤ cell.addr ∧ cell.addr + LEN ≤ R.END_ADDR)) :
    (DmaBuffer.new R cell v).2 = .panicked regionMismatchMessage ∧
    (∃ pre post : String,
      regionMismatchMessage = pre ++ "not in DMA-accessible region" ++ post) ∧
    ∀ b : DmaBuffer T LEN, (DmaBuffer.new R cell v).2 ≠ .ok b := by
  have hp : (DmaBuffer.new R cell v).2 = .panicked regionMismatchMessage := by
    rw [new_snd, if_neg h]
  refine ⟨hp, ⟨"Buffer ", "", rfl⟩, ?_⟩
  intro b hb
  rw [hp] at hb
  exact PanicOr.noConfusion hb

/-- Witness for C3: a 128-byte block at address 0x0800_0000 (outside all
three regions) is rejected with the region-mismatch panic. -/
theorem C3_witness :
    (DmaBuffer.new Sram1 (⟨0x08000000, List.replicate 128 0⟩ :
        GroundedArrayCell Nat 128) 0).2 = .panicked regionMismatchMessage ∧
    (∃ pre post : String,
      regionMismatchMessage = pre ++ "not in DMA-accessible region" ++ post) ∧
    ∀ b : DmaBuffer Nat 128,
      (DmaBuffer.new Sram1 (⟨0x08000000, List.replicate 128 0⟩ :
          GroundedArrayCell Nat 128) 0).2 ≠ .ok b :=
  C3_mismatch_panics_with_message Sram1 ⟨0x08000000, List.replicate 128 0⟩ 0
    (by decide)

/-- C4: `new` overwrites all LEN elements of the storage with the
caller-supplied fill value, and does so before the region check is
evaluated — the storage returned by `new` is filled even when the check
fails — and after a successful construction the immutable view reads LEN
copies of the fill value. -/
theorem C4_fill_before_check (R : Region) (cell : GroundedArrayCell T LEN)
    (v : T) :
    (DmaBuffer.new R cell v).1.data = List.replicate LEN v ∧
    ∀ b : DmaBuffer T LEN, (DmaBuffer.new R cell v).2 = .ok b →
      b.as_slice.elems = List.replicate LEN v := by
  refine ⟨by rw [new_fst], ?_⟩
  intro b hb
  rw [new_snd] at hb
  by_cases h : R.START_ADDR ≤ cell.addr ∧ cell.addr + LEN ≤ R.END_ADDR
  · rw [if_pos h] at hb
    cases hb
    rfl
  · rw [if_neg h] at hb
    exact absurd hb (fun hc => PanicOr.noConfusion hc)

/-- Witness for C4: filling a 3-element buffer at 0x2000_0000 (inside Dtcm)
with 9 leaves the storage and the constructed buffer holding [9, 9, 9]. -/
theorem C4_witness :
    (DmaBuffer.new Dtcm (⟨0x20000000, [1, 2, 3]⟩ :
        GroundedArrayCell Nat 3) 9).1.data = List.replicate 3 9 ∧
    (DmaBuffer.new Dtcm (⟨0x20000000, [1, 2, 3]⟩ :
        GroundedArrayCell Nat 3) 9).2 = .ok ⟨0x20000000, List.replicate 3 9⟩ ∧
    (⟨0x20000000, List.replicate 3 9⟩ :
        DmaBuffer Nat 3).as_slice.elems = List.replicate 3 9 := by
  have hok : (DmaBuffer.new Dtcm (⟨0x20000000, [1, 2, 3]⟩ :
      GroundedArrayCell Nat 3) 9).2 = .ok ⟨0x20000000, List.replicate 3 9⟩ := by
    rw [new_snd, if_pos (by decide)]
  exact ⟨(C4_fill_before_check Dtcm ⟨0x20000000, [1, 2, 3]⟩ 9).1, hok,
    (C4_fill_before_check Dtcm ⟨0x20000000, [1, 2, 3]⟩ 9).2 _ hok⟩

/-- Eliminating a successful `new`: the buffer wraps the storage's address
and its freshly filled contents, and the address-range check held. -/
theorem new_ok_elim (R : Region) (cell : GroundedArrayCell T LEN) (v : T)
    (b : DmaBuffer T LEN) (hb : (DmaBuffer.new R cell v).2 = .ok b) :
    b = ⟨cell.addr, List.replicate LEN v⟩ ∧
    R.START_ADDR ≤ cell.addr ∧ cell.addr + LEN ≤ R.END_ADDR := by
  rw [new_snd] at hb
  by_cases h : R.START_ADDR ≤ cell.addr ∧ cell.addr + LEN ≤ R.END_ADDR
  · rw [if_pos h] at hb
    cases hb
    exact ⟨rfl, h⟩
  · rw [if_neg h] at hb
    exact absurd hb (fun hc => PanicOr.noConfusion hc)

/-- `writeFrom` never touches the buffer's pointer. -/
theorem writeFrom_ptr (xs : List T) : ∀ (b : DmaBuffer T LEN) (i : Nat),
    (b.writeFrom i xs).ptr = b.ptr := by
  induction xs with
  | nil => intro b i; rfl
  | cons v vs ih =>
    intro b i
    exact (ih (b.store i v) (i + 1)).trans rfl

/-- `writeFrom pre.length xs` on a buffer whose memory is `pre ++ rest`
replaces `rest` by `xs` when the lengths agree. -/
theorem writeFrom_data (xs : List T) : ∀ (pre rest : List T)
    (b : DmaBuffer T LEN), b.data = pre ++ rest → xs.length = rest.length →
    (b.writeFrom pre.length xs).data = pre ++ xs := by
  induction xs with
  | nil =>
    intro pre rest b hb hl
    cases rest with
    | nil => simpa using hb
    | cons w rest' => simp at hl
  | cons v vs ih =>
    intro pre rest b hb hl
    cases rest with
    | nil => simp at hl
    | cons w rest' =>
      have hstore : (b.store pre.length v).data = (pre ++ [v]) ++ rest' := by
        show (b.data.set pre.length v) = (pre ++ [v]) ++ rest'
        rw [hb, List.set_append_right _ _ (le_refl pre.length)]
        simp
      have hlen : vs.length = rest'.length := by simpa using hl
      have hrec := ih (pre ++ [v]) rest' (b.store pre.length v) hstore hlen
      have hsucc : (pre ++ [v]).length = pre.length + 1 := by simp
      rw [hsucc] at hrec
      show (DmaBuffer.writeFrom (b.store pre.length v) (pre.length + 1) vs).data
        = pre ++ v :: vs
      rw [hrec]
      simp

/-- C6: round-trip — writing any LEN-element sequence through the mutable
view of a successfully constructed buffer and reading through the immutable
view yields the identical sequence. -/
theorem C6_roundtrip (R : Region) (cell : GroundedArrayCell T LEN) (v : T)
    (b : DmaBuffer T LEN) (xs : List T)
    (hb : (DmaBuffer.new R cell v).2 = .ok b) (hxs : xs.length = LEN) :
    (b.writeSeq xs).as_slice.elems = xs := by
  have hdata : b.data = List.replicate LEN v :=
    congrArg DmaBuffer.data (new_ok_elim R cell v b hb).1
  have hlen : xs.length = b.data.length := by
    rw [hdata, List.length_replicate, hxs]
  have h := writeFrom_data xs [] b.data b (by simp) hlen
  show (b.writeFrom 0 xs).data = xs
  simpa using h

/-- Witness for C6: constructing a 3-element buffer at 0x3000_0100 in Sram1,
writing [3, 1, 2] through the mutable view, then reading through the
immutable view gives back [3, 1, 2]. -/
theorem C6_witness :
    ((⟨0x30000100, List.replicate 3 5⟩ :
        DmaBuffer Nat 3).writeSeq [3, 1, 2]).as_slice.elems = [3, 1, 2] :=
  C6_roundtrip Sram1 ⟨0x30000100, [0, 0, 0]⟩ 5 ⟨0x30000100, List.replicate 3 5⟩
    [3, 1, 2] (by rw [new_snd, if_pos (by decide)]) (by decide)

/-- C7: the buffer's identity is fixed: the pointer accessors and the
LENGTH constant always return the same values, and the mutating operations
(single-element writes and sequence writes through the mutable view) leave
the pointer and the length untouched. -/
theorem C7_identity_immutable (b : DmaBuffer T LEN) (i : Nat) (v : T)
    (xs : List T) :
    b.as_ptr = b.ptr ∧ b.as_mut_ptr = b.ptr ∧ DmaBuffer.LENGTH T LEN = LEN ∧
    (b.store i v).as_ptr = b.as_ptr ∧
    (b.store i v).as_mut_ptr = b.as_mut_ptr ∧
    (b.writeSeq xs).as_ptr = b.as_ptr ∧
    (b.writeSeq xs).as_mut_ptr = b.as_mut_ptr ∧
    (b.store i v).as_slice.len = b.as_slice.len ∧
    (b.writeSeq xs).as_slice.len = b.as_slice.len := by
  refine ⟨rfl, rfl, rfl, rfl, rfl, ?_, ?_, rfl, rfl⟩ <;>
    exact writeFrom_ptr xs b 0

/-- C8: after a successful construction no accessor can fail: `as_slice`,
`as_mut_slice`, `as_ptr`, `as_mut_ptr` and the LENGTH query are total
functions returning plain values (never a panic outcome), the views cover
the full LEN elements, and the pointers are the validated address. -/
theorem C8_accessors_infallible (R : Region) (cell : GroundedArrayCell T LEN)
    (v : T) (b : DmaBuffer T LEN)
    (hb : (DmaBuffer.new R cell v).2 = .ok b) :
    b.as_slice = ⟨b.ptr, LEN, b.data⟩ ∧
    b.as_mut_slice = ⟨b.ptr, LEN, b.data⟩ ∧
    b.as_ptr = b.ptr ∧ b.as_mut_ptr = b.ptr ∧
    DmaBuffer.LENGTH T LEN = LEN ∧
    b.as_slice.elems.length = LEN := by
  have hdata : b.data = List.replicate LEN v :=
    congrArg DmaBuffer.data (new_ok_elim R cell v b hb).1
  refine ⟨rfl, rfl, rfl, rfl, rfl, ?_⟩
  show b.data.length = LEN
  rw [hdata, List.length_replicate]

/-- Witness for C8: the accessors of a buffer built at 0x2000_0000 in Dtcm
return its identity and a full 2-element view. -/
theorem C8_witness :
    (⟨0x20000000, List.replicate 2 4⟩ : DmaBuffer Nat 2).as_slice =
      ⟨0x20000000, 2, List.replicate 2 4⟩ ∧
    (⟨0x20000000, List.replicate 2 4⟩ : DmaBuffer Nat 2).as_mut_slice =
      ⟨0x20000000, 2, List.replicate 2 4⟩ ∧
    (⟨0x20000000, List.replicate 2 4⟩ : DmaBuffer Nat 2).as_ptr = 0x20000000 ∧
    (⟨0x20000000, List.replicate 2 4⟩ : DmaBuffer Nat 2).as_mut_ptr =
      0x20000000 ∧
    DmaBuffer.LENGTH Nat 2 = 2 ∧
    (⟨0x20000000, List.replicate 2 4⟩ :
      DmaBuffer Nat 2).as_slice.elems.length = 2 :=
  C8_accessors_infallible Dtcm (⟨0x20000000, [7, 7]⟩ : GroundedArrayCell Nat 2)
    4 ⟨0x20000000, List.replicate 2 4⟩ (by rw [new_snd, if_pos (by decide)])

/-- C9: the four view accessors of a constructed buffer agree on one
identity — both pointer accessors return the same address, both slice views
start at that address, and both are views of exactly LEN elements with the
same contents. -/
theorem C9_accessor_agreement (R : Region) (cell : GroundedArrayCell T LEN)
    (v : T) (b : DmaBuffer T LEN)
    (hb : (DmaBuffer.new R cell v).2 = .ok b) :
    b.as_ptr = b.as_mut_ptr ∧
    b.as_slice.base = b.as_ptr ∧ b.as_mut_slice.base = b.as_ptr ∧
    b.as_slice.len = LEN ∧ b.as_mut_slice.len = LEN ∧
    b.as_slice.elems = b.as_mut_slice.elems ∧
    b.as_slice.elems.length = LEN := by
  have hdata : b.data = List.replicate LEN v :=
    congrArg DmaBuffer.data (new_ok_elim R cell v b hb).1
  refine ⟨rfl, rfl, rfl, rfl, rfl, rfl, ?_⟩
  show b.data.length = LEN
  rw [hdata, List.length_replicate]

/-- Witness for C9: the accessors of a buffer built at address 0x200 in Itcm
agree on its identity. -/
theorem C9_witness :
    (⟨0x200, List.replicate 3 1⟩ : DmaBuffer Nat 3).as_ptr =
      (⟨0x200, List.replicate 3 1⟩ : DmaBuffer Nat 3).as_mut_ptr ∧
    (⟨0x200, List.replicate 3 1⟩ : DmaBuffer Nat 3).as_slice.base =
      (⟨0x200, List.replicate 3 1⟩ : DmaBuffer Nat 3).as_ptr ∧
    (⟨0x200, List.replicate 3 1⟩ : DmaBuffer Nat 3).as_mut_slice.base =
      (⟨0x200, List.replicate 3 1⟩ : DmaBuffer Nat 3).as_ptr ∧
    (⟨0x200, List.replicate 3 1⟩ : DmaBuffer Nat 3).as_slice.len = 3 ∧
    (⟨0x200, List.replicate 3 1⟩ : DmaBuffer Nat 3).as_mut_slice.len = 3 ∧
    (⟨0x200, List.replicate 3 1⟩ : DmaBuffer Nat 3).as_slice.elems =
      (⟨0x200, List.replicate 3 1⟩ : DmaBuffer Nat 3).as_mut_slice.elems ∧
    (⟨0x200, List.replicate 3 1⟩ : DmaBuffer Nat 3).as_slice.elems.length = 3 :=
  C9_accessor_agreement Itcm (⟨0x200, [0, 0, 0]⟩ : GroundedArrayCell Nat 3) 1
    ⟨0x200, List.replicate 3 1⟩ (by rw [new_snd, if_pos (by decide)])

/-- C10: the outcome of construction is independent of the fill value — on
the same storage and region, two calls differing only in the fill value
either both panic (with the same region-mismatch message) or both succeed,
and on success the buffers share base address and length. -/
theorem C10_fill_value_independence (R : Region)
    (cell : GroundedArrayCell T LEN) (v1 v2 : T) :
    (DmaBuffer.new R cell v1).2.isOk = (DmaBuffer.new R cell v2).2.isOk ∧
    (∀ m, (DmaBuffer.new R cell v1).2 = .panicked m →
      (DmaBuffer.new R cell v2).2 = .panicked m) ∧
    (∀ b1 b2, (DmaBuffer.new R cell v1).2 = .ok b1 →
      (DmaBuffer.new R cell v2).2 = .ok b2 →
      b1.ptr = b2.ptr ∧ b1.as_slice.len = b2.as_slice.len) := by
  by_cases h : R.START_ADDR ≤ cell.addr ∧ cell.addr + LEN ≤ R.END_ADDR
  · have h1 : (DmaBuffer.new R cell v1).2 =
        .ok ⟨cell.addr, List.replicate LEN v1⟩ := by rw [new_snd, if_pos h]
    have h2 : (DmaBuffer.new R cell v2).2 =
        .ok ⟨cell.addr, List.replicate LEN v2⟩ := by rw [new_snd, if_pos h]
    refine ⟨by rw [h1, h2]; rfl, ?_, ?_⟩
    · intro m hm
      rw [h1] at hm
      exact absurd hm (fun hc => PanicOr.noConfusion hc)
    · intro b1 b2 hb1 hb2
      have e1 := (new_ok_elim R cell v1 b1 hb1).1
      have e2 := (new_ok_elim R cell v2 b2 hb2).1
      rw [e1, e2]
      exact ⟨rfl, rfl⟩
  · have h1 : (DmaBuffer.new R cell v1).2 = .panicked regionMismatchMessage := by
      rw [new_snd, if_neg h]
    have h2 : (DmaBuffer.new R cell v2).2 = .panicked regionMismatchMessage := by
      rw [new_snd, if_neg h]
    refine ⟨by rw [h1, h2], ?_, ?_⟩
    · intro m hm
      rw [h1] at hm
      rw [h2, ← hm]
    · intro b1 b2 hb1 hb2
      rw [h1] at hb1
      exact absurd hb1 (fun hc => PanicOr.noConfusion hc)

/-- Witness for C10: at address 0x100 in Itcm, construction with fill 1 and
with fill 2 both succeed, with equal base address and length. -/
theorem C10_witness :
    (DmaBuffer.new Itcm (⟨0x100, [0, 0]⟩ : GroundedArrayCell Nat 2) 1).2.isOk =
      (DmaBuffer.new Itcm (⟨0x100, [0, 0]⟩ : GroundedArrayCell Nat 2) 2).2.isOk ∧
    (⟨0x100, List.replicate 2 1⟩ : DmaBuffer Nat 2).ptr =
      (⟨0x100, List.replicate 2 2⟩ : DmaBuffer Nat 2).ptr ∧
    (⟨0x100, List.replicate 2 1⟩ : DmaBuffer Nat 2).as_slice.len =
      (⟨0x100, List.replicate 2 2⟩ : DmaBuffer Nat 2).as_slice.len := by
  have h := C10_fill_value_independence Itcm
    (⟨0x100, [0, 0]⟩ : GroundedArrayCell Nat 2) 1 2
  have hb := h.2.2 ⟨0x100, List.replicate 2 1⟩ ⟨0x100, List.replicate 2 2⟩
    (by rw [new_snd, if_pos (by decide)]) (by rw [new_snd, if_pos (by decide)])
  exact ⟨h.1, hb.1, hb.2⟩

end DmaAccessible
